import Mathlib

/-!
# Verification of the solit-html signal core

A shallow embedding of the reactive-signal core of the repository:
`SignalBase` (src/signals/SignalBase.ts), `Signal` and `Signal.batch`
(src/signals/Signal.ts) and `ComputedSignal` (src/signals/ComputedSignal.ts).

The embedding is executable: the mutable object graph of the TypeScript
classes becomes an explicit `World` value, the ambient
`SignalBase.context` stack becomes `World.context`, and the static
`Signal.batchedUpdateChecks` set becomes `World.batched`.  Subscriber
callbacks and getter functions are defunctionalized: the only callbacks the
core itself installs are the per-cell bound `updateSubscribers` methods
(`Sub.cellUpdate`), external test callbacks are modelled as opaque tags
(`Sub.ext`) whose invocations are recorded in a log, and getters are terms
of a small expression language `GExp` covering reads (`get`, `get(false)`,
`peek`), arithmetic, conditionals and a throwing getter.

Every operation is interpreted by a single fuel-indexed interpreter `run`;
fuel bounds only the call depth (all recursive calls pass `n` from `n+1`),
so any terminating JS execution is reproduced exactly by a sufficiently
large fuel.  A thrown JS exception is `Exc.thrown`; the world at the moment
of the throw is returned alongside (the TypeScript code has no `finally`
blocks, so whatever state was mutated before the throw stays mutated).
-/

namespace Solit

/-- The universe of JS values used by the signal core in the scenarios of
interest: `undefined`, `NaN`, integers, booleans, strings, and object
references identified by their identity (`Object.is` on objects is
reference equality, so a `ref` carries only its identity). -/
inductive Val where
  | undef : Val
  | nan : Val
  | int : Int → Val
  | bool : Bool → Val
  | str : String → Val
  | ref : Nat → Val
deriving DecidableEq, Repr

/-- `Object.is`: structural on primitives, `NaN` equal to itself,
reference identity on objects. -/
def objectIs : Val → Val → Bool
  | .undef, .undef => true
  | .nan, .nan => true
  | .int a, .int b => a == b
  | .bool a, .bool b => a == b
  | .str a, .str b => a == b
  | .ref a, .ref b => a == b
  | _, _ => false

/-- Strict equality `===`: like `Object.is` except `NaN !== NaN`.
(`ComputedSignal.peek` compares cached dependency values with `!==`.) -/
def strictEq : Val → Val → Bool
  | .nan, _ => false
  | _, .nan => false
  | a, b => objectIs a b

/-- `notEqual` from src/signals/SignalBase.ts: the default `hasChanged`,
`(a, b) => !Object.is(a, b)`. -/
def notEqual (a b : Val) : Bool := !(objectIs a b)

/-- Defunctionalized `hasChanged` option: the default (`notEqual`), or the
two constant policies standing in for caller-supplied comparators. -/
inductive HCK where
  | defaultHC : HCK
  | alwaysChanged : HCK
  | neverChanged : HCK
deriving DecidableEq, Repr

/-- Evaluate a defunctionalized `hasChanged` policy. -/
def evalHC : HCK → Val → Val → Bool
  | .defaultHC, a, b => notEqual a b
  | .alwaysChanged, _, _ => true
  | .neverChanged, _, _ => false

/-- A subscriber callback identity: either the bound `updateSubscribers`
method of cell `id` (installed by `ComputedSignal.addDependency`), or an
external callback tagged `k` whose calls are logged. -/
inductive Sub where
  | cellUpdate : Nat → Sub
  | ext : Nat → Sub
deriving DecidableEq, Repr

/-- Defunctionalized getter bodies: enough of a JS expression language for
the getters appearing in the spec and tests (`cell.get()`, `cell.get(false)`,
`cell.peek`, literals, `* k`, `+`, conditionals, and `throw`). -/
inductive GExp where
  | lit : Val → GExp
  | getE : Nat → GExp
  | getF : Nat → GExp
  | peekE : Nat → GExp
  | mulE : GExp → Int → GExp
  | addE : GExp → GExp → GExp
  | iteE : GExp → GExp → GExp → GExp
  | throwE : GExp
deriving DecidableEq, Repr

/-- JS numeric multiplication restricted to the modelled values. -/
def valMul (v : Val) (k : Int) : Val :=
  match v with
  | .int n => .int (n * k)
  | _ => .nan

/-- JS numeric addition restricted to the modelled values. -/
def valAdd : Val → Val → Val
  | .int a, .int b => .int (a + b)
  | _, _ => .nan

/-- JS truthiness on the modelled values. -/
def truthy : Val → Bool
  | .bool b => b
  | .int n => n != 0
  | .str s => s.length != 0
  | .ref _ => true
  | .undef => false
  | .nan => false

/-- One entry of a `ComputedSignal`'s cache (`CachedResult<T>` in
src/signals/ComputedSignal.ts): the computed value and the `Map` from
dependency cell to its value at computation time, in insertion order. -/
structure CachedResult where
  value : Val
  dependencies : List (Nat × Val)
deriving DecidableEq, Repr

instance : Inhabited CachedResult := ⟨⟨.undef, []⟩⟩

/-- The per-cell state of `SignalBase` / `Signal` / `ComputedSignal`.
`getter = none` marks a writable `Signal`, `getter = some g` a
`ComputedSignal` with getter `g`.  Lists model JS `Set`s/`Map`s: insertion
order, no duplicates. -/
structure Cell where
  getter : Option GExp
  cacheSize : Nat
  value : Val
  initialValue : Val
  lastBroadcastValue : Val
  subscribers : List Sub
  hasChangedK : HCK
  cache : List CachedResult
  dependencies : List Nat
deriving DecidableEq, Repr

instance : Inhabited Cell :=
  ⟨⟨none, 0, .undef, .undef, .undef, [], .defaultHC, [], []⟩⟩

/-- A fresh writable `Signal` with initial value `v` and default options. -/
def mkSignal (v : Val) : Cell :=
  { getter := none, cacheSize := 0, value := v, initialValue := v
    lastBroadcastValue := v, subscribers := [], hasChangedK := .defaultHC
    cache := [], dependencies := [] }

/-- A fresh `ComputedSignal` with getter `g` and the given `cacheSize`
(`super(undefined as T)`: value and broadcast baseline start `undefined`). -/
def mkComputed (g : GExp) (cacheSize : Nat := 1) : Cell :=
  { getter := some g, cacheSize := cacheSize, value := .undef
    initialValue := .undef, lastBroadcastValue := .undef, subscribers := []
    hasChangedK := .defaultHC, cache := [], dependencies := [] }

/-- The whole mutable state: the cells (indexed by identity), the global
`SignalBase.context` stack (head = top), the static
`Signal.batchedUpdateChecks` pending set, and three write-only
instrumentation logs: external-subscriber invocations, getter invocations,
and `updateSubscribers` entries. -/
structure World where
  cells : List Cell
  context : List Nat
  batched : Option (List Nat)
  extLog : List (Nat × Val)
  getterRuns : List Nat
  checks : List Nat
deriving DecidableEq, Repr

/-- Read cell `i`. -/
def World.cell (w : World) (i : Nat) : Cell := w.cells.getD i default

/-- Replace cell `i` by `f` of its current state. -/
def World.modCell (w : World) (i : Nat) (f : Cell → Cell) : World :=
  { w with cells := w.cells.set i (f (w.cells.getD i default)) }

/-- A world holding the given cells, outside any batch, with empty logs. -/
def mkWorld (cells : List Cell) : World :=
  { cells := cells, context := [], batched := none, extLog := []
    getterRuns := [], checks := [] }

/-- JS `Set.add`: append if not present. -/
def addUnique [BEq α] (l : List α) (a : α) : List α :=
  if l.contains a then l else l ++ [a]

/-- JS `Set.difference`: elements of `l` not in `r`, in the order of `l`. -/
def listDiff [BEq α] (l r : List α) : List α :=
  l.filter (fun a => !(r.contains a))

/-- JS `Map.set`: update in place if the key exists, else append. -/
def mapSet (m : List (Nat × Val)) (k : Nat) (v : Val) : List (Nat × Val) :=
  if m.any (fun p => p.1 == k) then
    m.map (fun p => if p.1 == k then (k, v) else p)
  else m ++ [(k, v)]

/-- Public operations a consumer can perform, used to express the
scenarios of the spec (`batch` actions are lists of operations; the value
of a list of operations is the value of its last operation). -/
inductive Op where
  | setO : Nat → Val → Op
  | getO : Nat → Op
  | peekO : Nat → Op
  | subO : Nat → Nat → Op
  | obsO : Nat → Nat → Op
  | unsubO : Nat → Nat → Op
  | batchO : List Op → Op

/-- The defunctionalized call forms of the embedded methods.  Each
constructor corresponds to one method of the TypeScript source (or to one
of its internal loops). -/
inductive Cmd where
  | peek : Nat → Cmd
  | getTr : Nat → Bool → Cmd
  | computeValue : Nat → Cmd
  | evalGetter : GExp → Cmd
  | setDependency : Nat → Nat → Cmd
  | addDependency : Nat → Nat → Cmd
  | removeDependency : Nat → Nat → Cmd
  | removeDeps : Nat → List Nat → Cmd
  | addDeps : Nat → List Nat → Cmd
  | clearDependencies : Nat → Cmd
  | observe : Nat → Sub → Cmd
  | subscribe : Nat → Sub → Cmd
  | unsubscribe : Nat → Sub → Cmd
  | updateSubscribers : Nat → Cmd
  | notify : Nat → List Sub → Cmd
  | invoke : Sub → Val → Cmd
  | setVal : Nat → Val → Cmd
  | requestUpdate : Nat → Cmd
  | scan : List CachedResult → Cmd
  | entryMatches : List (Nat × Val) → Cmd
  | runOp : Op → Cmd
  | runOps : List Op → Val → Cmd
  | flushFrom : Nat → Cmd

/-- Exceptional outcomes: a thrown JS exception, or fuel exhaustion (never
reached by a terminating execution given enough fuel). -/
inductive Exc where
  | thrown : Exc
  | fuel : Exc
deriving DecidableEq, Repr

/-- The result of a call: the world after it, and its value or exception.
(JS has no `finally` in this code, so a throw leaves the world exactly as
it was at the moment of the throw.) -/
abbrev Res := World × Except Exc Val

instance : DecidableEq (Except Exc Val) := fun a b =>
  match a, b with
  | .error a, .error b =>
    if h : a = b then .isTrue (congrArg Except.error h)
    else .isFalse (fun hh => h (Except.error.inj hh))
  | .ok a, .ok b =>
    if h : a = b then .isTrue (congrArg Except.ok h)
    else .isFalse (fun hh => h (Except.ok.inj hh))
  | .error _, .ok _ => .isFalse Except.noConfusion
  | .ok _, .error _ => .isFalse Except.noConfusion

/-- One step of every method body; `recur` interprets inner calls.  Each
`Cmd` case is a line-by-line transcription of the corresponding TypeScript
method; comments cite the source. -/
def runBody (recur : Cmd → World → Res) : Cmd → World → Res
  | .peek i, w =>
    -- SignalBase: `get peek() { return this._value }`.
    -- ComputedSignal overrides (ComputedSignal.ts:28-51):
    let c := w.cell i
    match c.getter with
    | none => (w, .ok c.value)
    | some _ =>
      -- `const cachedResult = this._cache.find((cache) => ...)`
      match recur (.scan c.cache) w with
      | (w1, .error e) => (w1, .error e)
      | (w1, .ok found) =>
        match found with
        | .int idx =>
          let entry := c.cache.getD idx.toNat default
          -- move the hit to the front of the cache (splice + unshift)
          let w2 := w1.modCell i fun c1 =>
            { c1 with cache := entry :: c1.cache.erase entry }
          -- swap out dependency subscriptions
          let cacheDeps := entry.dependencies.map (·.1)
          let toRemove := listDiff (w2.cell i).dependencies cacheDeps
          match recur (.removeDeps i toRemove) w2 with
          | (w3, .error e) => (w3, .error e)
          | (w3, .ok _) =>
            let toAdd := listDiff cacheDeps (w3.cell i).dependencies
            match recur (.addDeps i toAdd) w3 with
            | (w4, .error e) => (w4, .error e)
            | (w4, .ok _) =>
              -- `return (this._value = cachedResult.value)`
              (w4.modCell i (fun c1 => { c1 with value := entry.value }),
               .ok entry.value)
        | _ => recur (.computeValue i) w1
  | .scan es, w =>
    -- the `find` loop over cache entries: value `.int k` if entry `k`
    -- matches, `.undef` if none does
    match es with
    | [] => (w, .ok .undef)
    | e :: rest =>
      match recur (.entryMatches e.dependencies) w with
      | (w1, .error ex) => (w1, .error ex)
      | (w1, .ok (.bool true)) => (w1, .ok (.int 0))
      | (w1, .ok _) =>
        match recur (.scan rest) w1 with
        | (w2, .ok (.int m)) => (w2, .ok (.int (m + 1)))
        | other => other
  | .entryMatches ds, w =>
    -- `for (const [dependency, value] of cache.dependencies)
    --    if (dependency.peek !== value) return false`
    match ds with
    | [] => (w, .ok (.bool true))
    | (d, v) :: rest =>
      match recur (.peek d) w with
      | (w1, .error e) => (w1, .error e)
      | (w1, .ok pv) =>
        if strictEq pv v then recur (.entryMatches rest) w1
        else (w1, .ok (.bool false))
  | .computeValue i, w =>
    -- ComputedSignal.computeValue (ComputedSignal.ts:81-103)
    let c := w.cell i
    match c.getter with
    | none => (w, .ok c.value)
    | some g =>
      -- `SignalBase.context.push(this.setDependency)`
      let w1 := { w with context := i :: w.context }
      -- `const previousDependencies = new Set(this._dependencies)`
      let prevDeps := (w1.cell i).dependencies
      -- `this._dependencies = new Set()`
      let w2 := w1.modCell i fun c1 => { c1 with dependencies := [] }
      -- `if (this._cacheSize) { unshift new frame; splice to _cacheSize }`
      let w3 :=
        if c.cacheSize ≠ 0 then
          w2.modCell i fun c1 =>
            { c1 with cache :=
                (({ value := c1.value, dependencies := [] } : CachedResult)
                  :: c1.cache).take c1.cacheSize }
        else w2
      -- `this._value = this.getter()` (the invocation is logged)
      let w4 := { w3 with getterRuns := w3.getterRuns ++ [i] }
      match recur (.evalGetter g) w4 with
      | (w5, .error e) =>
        -- the JS source has no try/finally here: on a throw the context
        -- stack is NOT popped and the fresh cache frame stays
        (w5, .error e)
      | (w5, .ok v) =>
        let w6 := w5.modCell i fun c1 => { c1 with value := v }
        -- `const lastCache = this._cache[0]; if (lastCache) lastCache.value = this._value`
        let w7 := w6.modCell i fun c1 =>
          { c1 with cache :=
              match c1.cache with
              | [] => []
              | e :: rest => { e with value := v } :: rest }
        -- `SignalBase.context.pop()`
        let w8 := { w7 with context := w7.context.tail }
        -- `previousDependencies.difference(this._dependencies).forEach(this.removeDependency)`
        let stale := listDiff prevDeps (w8.cell i).dependencies
        match recur (.removeDeps i stale) w8 with
        | (w9, .error e) => (w9, .error e)
        | (w9, .ok _) => (w9, .ok v)
  | .evalGetter g, w =>
    match g with
    | .lit v => (w, .ok v)
    | .getE i => recur (.getTr i true) w
    | .getF i => recur (.getTr i false) w
    | .peekE i => recur (.peek i) w
    | .mulE g1 k =>
      match recur (.evalGetter g1) w with
      | (w1, .ok v) => (w1, .ok (valMul v k))
      | other => other
    | .addE a b =>
      match recur (.evalGetter a) w with
      | (w1, .error e) => (w1, .error e)
      | (w1, .ok va) =>
        match recur (.evalGetter b) w1 with
        | (w2, .ok vb) => (w2, .ok (valAdd va vb))
        | other => other
    | .iteE cnd t e =>
      match recur (.evalGetter cnd) w with
      | (w1, .error ex) => (w1, .error ex)
      | (w1, .ok vc) =>
        if truthy vc then recur (.evalGetter t) w1
        else recur (.evalGetter e) w1
    | .throwE => (w, .error .thrown)
  | .getTr i track, w =>
    -- SignalBase.get (SignalBase.ts:89-96):
    -- `if (track) { const caller = SignalBase.context.at(-1); caller?.(this) }
    --  return this.peek`
    let step1 : Res :=
      if track then
        match w.context with
        | [] => (w, .ok .undef)
        | o :: _ => recur (.setDependency o i) w
      else (w, .ok .undef)
    match step1 with
    | (w1, .error e) => (w1, .error e)
    | (w1, .ok _) => recur (.peek i) w1
  | .setDependency o d, w =>
    -- ComputedSignal.setDependency (ComputedSignal.ts:72-79), `this` = o
    let co := w.cell o
    let step1 : Res :=
      if co.subscribers.length ≠ 0 then recur (.addDependency o d) w
      else (w, .ok .undef)
    match step1 with
    | (w1, .error e) => (w1, .error e)
    | (w1, .ok _) =>
      -- `const lastCache = this._cache[0];
      --  lastCache?.dependencies.set(dependency, dependency.peek)`
      match (w1.cell o).cache with
      | [] => (w1, .ok .undef)
      | _ :: _ =>
        match recur (.peek d) w1 with
        | (w2, .error e) => (w2, .error e)
        | (w2, .ok pv) =>
          (w2.modCell o fun c1 =>
            { c1 with cache :=
                match c1.cache with
                | [] => []
                | e :: rest =>
                  { e with dependencies := mapSet e.dependencies d pv } :: rest },
           .ok .undef)
  | .addDependency o d, w =>
    -- `dependency.observe(this.updateSubscribers); this._dependencies.add(dependency)`
    match recur (.observe d (.cellUpdate o)) w with
    | (w1, .error e) => (w1, .error e)
    | (w1, .ok _) =>
      (w1.modCell o fun c1 =>
        { c1 with dependencies := addUnique c1.dependencies d }, .ok .undef)
  | .removeDependency o d, w =>
    -- `dependency.unsubscribe(this.updateSubscribers); this._dependencies.delete(dependency)`
    match recur (.unsubscribe d (.cellUpdate o)) w with
    | (w1, .error e) => (w1, .error e)
    | (w1, .ok _) =>
      (w1.modCell o fun c1 =>
        { c1 with dependencies := c1.dependencies.erase d }, .ok .undef)
  | .removeDeps o ds, w =>
    match ds with
    | [] => (w, .ok .undef)
    | d :: rest =>
      match recur (.removeDependency o d) w with
      | (w1, .error e) => (w1, .error e)
      | (w1, .ok _) => recur (.removeDeps o rest) w1
  | .addDeps o ds, w =>
    match ds with
    | [] => (w, .ok .undef)
    | d :: rest =>
      match recur (.addDependency o d) w with
      | (w1, .error e) => (w1, .error e)
      | (w1, .ok _) => recur (.addDeps o rest) w1
  | .clearDependencies i, w =>
    -- `this._dependencies.forEach(this.removeDependency)`
    recur (.removeDeps i (w.cell i).dependencies) w
  | .observe i s, w =>
    -- SignalBase.observe adds the subscriber; ComputedSignal.observe
    -- (ComputedSignal.ts:53-60) additionally peeks when the size hits 1
    let w1 := w.modCell i fun c1 =>
      { c1 with subscribers := addUnique c1.subscribers s }
    if (w1.cell i).getter.isSome ∧ (w1.cell i).subscribers.length == 1 then
      match recur (.peek i) w1 with
      | (w2, .error e) => (w2, .error e)
      | (w2, .ok _) => (w2, .ok .undef)
    else (w1, .ok .undef)
  | .subscribe i s, w =>
    -- SignalBase.subscribe (SignalBase.ts:66-76)
    match recur (.observe i s) w with
    | (w1, .error e) => (w1, .error e)
    | (w1, .ok _) =>
      -- `subscriber(this.peek)`
      match recur (.peek i) w1 with
      | (w2, .error e) => (w2, .error e)
      | (w2, .ok v) =>
        match recur (.invoke s v) w2 with
        | (w3, .error e) => (w3, .error e)
        | (w3, .ok _) =>
          -- `if (this._subscribers.size === 1) this._lastBroadcastValue = this._value`
          let w4 :=
            if (w3.cell i).subscribers.length == 1 then
              w3.modCell i fun c1 => { c1 with lastBroadcastValue := c1.value }
            else w3
          (w4, .ok .undef)
  | .unsubscribe i s, w =>
    -- SignalBase.unsubscribe; ComputedSignal.unsubscribe
    -- (ComputedSignal.ts:62-70) clears dependencies at zero subscribers
    let w1 := w.modCell i fun c1 =>
      { c1 with subscribers := c1.subscribers.erase s }
    if (w1.cell i).getter.isSome ∧ (w1.cell i).subscribers.length == 0 then
      match recur (.clearDependencies i) w1 with
      | (w2, .error e) => (w2, .error e)
      | (w2, .ok _) => (w2, .ok .undef)
    else (w1, .ok .undef)
  | .updateSubscribers i, w =>
    -- SignalBase.updateSubscribers (SignalBase.ts:110-119); entry logged
    let w0 := { w with checks := w.checks ++ [i] }
    let c := w0.cell i
    if c.subscribers.length == 0 then (w0, .ok .undef)
    else
      -- `hasChanged(this._lastBroadcastValue, this.peek)`
      match recur (.peek i) w0 with
      | (w1, .error e) => (w1, .error e)
      | (w1, .ok pv) =>
        if evalHC c.hasChangedK c.lastBroadcastValue pv then
          match recur (.notify i (w1.cell i).subscribers) w1 with
          | (w2, .error e) => (w2, .error e)
          | (w2, .ok _) =>
            -- `this._lastBroadcastValue = this._value`
            (w2.modCell i fun c1 => { c1 with lastBroadcastValue := c1.value },
             .ok .undef)
        else (w1, .ok .undef)
  | .notify i ss, w =>
    -- `this._subscribers.forEach((subscriber) => subscriber(this._value))`
    match ss with
    | [] => (w, .ok .undef)
    | s :: rest =>
      match recur (.invoke s ((w.cell i).value)) w with
      | (w1, .error e) => (w1, .error e)
      | (w1, .ok _) => recur (.notify i rest) w1
  | .invoke s v, w =>
    match s with
    | .ext k => ({ w with extLog := w.extLog ++ [(k, v)] }, .ok .undef)
    | .cellUpdate j => recur (.updateSubscribers j) w
  | .setVal i v, w =>
    -- Signal.set (Signal.ts:37-44)
    let w1 := w.modCell i fun c1 => { c1 with value := v }
    let w2 :=
      if (w1.cell i).subscribers.length == 0 then
        w1.modCell i fun c1 => { c1 with lastBroadcastValue := v }
      else w1
    match recur (.requestUpdate i) w2 with
    | (w3, .error e) => (w3, .error e)
    | (w3, .ok _) => (w3, .ok ((w3.cell i).value))
  | .requestUpdate i, w =>
    -- Signal.requestUpdate (Signal.ts:61-67)
    match w.batched with
    | some l => ({ w with batched := some (addUnique l i) }, .ok .undef)
    | none => recur (.updateSubscribers i) w
  | .runOp op, w =>
    match op with
    | .setO i v => recur (.setVal i v) w
    | .getO i => recur (.getTr i true) w
    | .peekO i => recur (.peek i) w
    | .subO i k => recur (.subscribe i (.ext k)) w
    | .obsO i k => recur (.observe i (.ext k)) w
    | .unsubO i k => recur (.unsubscribe i (.ext k)) w
    | .batchO ops =>
      -- Signal.batch (Signal.ts:14-25)
      let flush := w.batched.isNone
      let w1 := if w.batched.isNone then { w with batched := some [] } else w
      match recur (.runOps ops .undef) w1 with
      | (w2, .error e) => (w2, .error e)
      | (w2, .ok v) =>
        if flush then
          match recur (.flushFrom 0) w2 with
          | (w3, .error e) => (w3, .error e)
          | (w3, .ok _) => ({ w3 with batched := none }, .ok v)
        else (w2, .ok v)
  | .runOps ops acc, w =>
    match ops with
    | [] => (w, .ok acc)
    | op :: rest =>
      match recur (.runOp op) w with
      | (w1, .error e) => (w1, .error e)
      | (w1, .ok v) => recur (.runOps rest v) w1
  | .flushFrom k, w =>
    -- `Signal.batchedUpdateChecks?.forEach(Reflect.apply)`: the pending
    -- set is iterated live (members appended during the flush are also
    -- run; re-adding a present member does not re-run it)
    match w.batched with
    | none => (w, .ok .undef)
    | some l =>
      if k < l.length then
        match recur (.updateSubscribers (l.getD k 0)) w with
        | (w1, .error e) => (w1, .error e)
        | (w1, .ok _) => recur (.flushFrom (k + 1)) w1
      else (w, .ok .undef)

/-- The fuel-indexed interpreter.  Fuel bounds only call depth: every
inner call of `runBody` is interpreted at `n` from `n + 1`, so any
terminating execution is computed exactly once the fuel exceeds its call
depth. -/
def run : Nat → Cmd → World → Res
  | 0, _, w => (w, .error .fuel)
  | n + 1, c, w => runBody (run n) c w

theorem run_succ (n : Nat) (c : Cmd) (w : World) :
    run (n + 1) c w = runBody (run n) c w := rfl


/-! ## Scenario worlds for the claims -/

/-- C2 / error propagation: a single `ComputedSignal` whose getter throws. -/
def c2World : World := mkWorld [mkComputed .throwE 1]

/-- C3: `w = Signal(1)`; `doubled = Computed(() => w.get() * 2, cacheSize 2)`. -/
def c3World : World := mkWorld [mkSignal (.int 1), mkComputed (.mulE (.getE 0) 2) 2]

/-- C3: the operation sequence of the spec's cacheSize-2 example. -/
def c3Ops : List Op :=
  [.peekO 1, .setO 0 (.int 2), .peekO 1, .setO 0 (.int 1), .peekO 1,
   .setO 0 (.int 3), .peekO 1, .setO 0 (.int 2), .peekO 1]

/-- C3: the state and value after the first `k` operations of `c3Ops`. -/
def c3Run (k : Nat) : Res := run 300 (.runOps (c3Ops.take k) .undef) c3World

/-- C5: `w = Signal(1)`; `c = Computed(() => w.get() * 2)` (default options). -/
def c5World : World := mkWorld [mkSignal (.int 1), mkComputed (.mulE (.getE 0) 2) 1]

/-- C5: run a list of public operations on `c5World`. -/
def c5Run (ops : List Op) : Res := run 300 (.runOps ops .undef) c5World

/-- C6: one writable cell, current value `u`, last broadcast value `a`, one
external subscriber, default `hasChanged`. -/
def c6World (a u : Val) : World :=
  mkWorld [{ mkSignal u with lastBroadcastValue := a, subscribers := [.ext 0] }]

/-- C7: `firstNumber = Signal(1)`, `secondNumber = Signal(2)`,
`lever = Signal(true)`, and a computed
`() => lever.get() ? firstNumber.get() : secondNumber.get()`. -/
def c7World : World := mkWorld
  [mkSignal (.int 1), mkSignal (.int 2), mkSignal (.bool true),
   mkComputed (.iteE (.getE 2) (.getE 0) (.getE 1)) 1]

/-- C7: run a list of public operations on `c7World`. -/
def c7Run (ops : List Op) : Res := run 300 (.runOps ops .undef) c7World

/-- C8: `count = Signal(1)`; `doubled = Computed(() => count.get() * 2)`. -/
def c8World : World := mkWorld [mkSignal (.int 1), mkComputed (.mulE (.getE 0) 2) 1]

/-- C8: subscribe, unsubscribe, subscribe again; `c8Run k` runs the first
`k` of these operations. -/
def c8Run (k : Nat) : Res :=
  run 300 (.runOps ([.subO 1 0, .unsubO 1 0, .subO 1 7].take k) .undef) c8World

/-- C9: one writable cell with an external subscriber, inside an active
batch (`Signal.batchedUpdateChecks` is an empty pending set). -/
def c9World (u : Val) : World :=
  { mkWorld [{ mkSignal u with subscribers := [.ext 0] }] with batched := some [] }

/-- C10: `w = Signal(3)`; `comp = Computed(() => w.get() * 2)`, never yet
evaluated (its internal value is still `undefined`). -/
def c10World : World := mkWorld [mkSignal (.int 3), mkComputed (.mulE (.getE 0) 2) 1]

/-- C10: run a list of public operations on `c10World`. -/
def c10Run (ops : List Op) : Res := run 300 (.runOps ops .undef) c10World

/-- C1: the diamond graph. Cell 0 = `W = Signal(1)`;
cell 1 = `C1 = Computed(() => W.get() * 2)`;
cell 2 = `C2 = Computed(() => W.get() * 3)`;
cell 3 = `V = Computed(() => C1.get() + C2.get())` (all default options). -/
def diamondWorld : World := mkWorld
  [mkSignal (.int 1), mkComputed (.mulE (.getE 0) 2) 1,
   mkComputed (.mulE (.getE 0) 3) 1, mkComputed (.addE (.getE 1) (.getE 2)) 1]

/-- C1: the diamond world after `V.subscribe(cb)` (cb = external tag 0). -/
def dSetupW : World := (run 200 (.runOp (.subO 3 0)) diamondWorld).1

/-- C1: the diamond world after setup, with W's value and the batch state
as parameters (`dSetupW = dMid (.int 1) none`, proved below). -/
def dMid (u : Val) (b : Option (List Nat)) : World :=
  { cells :=
      [{ getter := none, cacheSize := 0, value := u, initialValue := .int 1,
         lastBroadcastValue := .int 1,
         subscribers := [.cellUpdate 1, .cellUpdate 2],
         hasChangedK := .defaultHC, cache := [], dependencies := [] },
       { getter := some (.mulE (.getE 0) 2), cacheSize := 1, value := .int 2,
         initialValue := .undef, lastBroadcastValue := .undef,
         subscribers := [.cellUpdate 3], hasChangedK := .defaultHC,
         cache := [⟨.int 2, [(0, .int 1)]⟩], dependencies := [0] },
       { getter := some (.mulE (.getE 0) 3), cacheSize := 1, value := .int 3,
         initialValue := .undef, lastBroadcastValue := .undef,
         subscribers := [.cellUpdate 3], hasChangedK := .defaultHC,
         cache := [⟨.int 3, [(0, .int 1)]⟩], dependencies := [0] },
       { getter := some (.addE (.getE 1) (.getE 2)), cacheSize := 1,
         value := .int 5, initialValue := .undef,
         lastBroadcastValue := .int 5, subscribers := [.ext 0],
         hasChangedK := .defaultHC,
         cache := [⟨.int 5, [(1, .int 2), (2, .int 3)]⟩],
         dependencies := [1, 2] }],
    context := [], batched := b, extLog := [(0, .int 5)],
    getterRuns := [3, 1, 2], checks := [] }

/-- C4: one writable cell with current value `u`, last broadcast value `a`,
one external subscriber and `hasChanged` policy `hck`. -/
def c4World (a u : Val) (hck : HCK) : World :=
  mkWorld [{ getter := none, cacheSize := 0, value := u, initialValue := .undef,
             lastBroadcastValue := a, subscribers := [.ext 0],
             hasChangedK := hck, cache := [], dependencies := [] }]

/-- C4's world with the batch state as a parameter. -/
def c4Mid (a u : Val) (hck : HCK) (b : Option (List Nat)) : World :=
  { c4World a u hck with batched := b }

/-- The last element of a list, or `u` if the list is empty (the net value
of a sequence of writes starting from `u`). -/
def lastD {U : Type} (vs : List U) (u : U) : U :=
  match vs with
  | [] => u
  | v :: rest => lastD rest v

/-- C1: a batch action consisting of writes of the given integers to W. -/
def dSets (vs : List Int) : List Op := vs.map (fun v => Op.setO 0 (.int v))

theorem runAt1 (n : Nat) (c : Cmd) (w : World) : run (n + 1) c w = runBody (run n) c w := rfl
theorem runAt2 (n : Nat) (c : Cmd) (w : World) : run (n + 2) c w = runBody (run (n + 1)) c w := rfl
theorem runAt3 (n : Nat) (c : Cmd) (w : World) : run (n + 3) c w = runBody (run (n + 2)) c w := rfl
theorem runAt4 (n : Nat) (c : Cmd) (w : World) : run (n + 4) c w = runBody (run (n + 3)) c w := rfl
theorem runAt5 (n : Nat) (c : Cmd) (w : World) : run (n + 5) c w = runBody (run (n + 4)) c w := rfl
theorem runAt6 (n : Nat) (c : Cmd) (w : World) : run (n + 6) c w = runBody (run (n + 5)) c w := rfl
theorem runAt7 (n : Nat) (c : Cmd) (w : World) : run (n + 7) c w = runBody (run (n + 6)) c w := rfl
theorem runAt8 (n : Nat) (c : Cmd) (w : World) : run (n + 8) c w = runBody (run (n + 7)) c w := rfl
theorem runAt9 (n : Nat) (c : Cmd) (w : World) : run (n + 9) c w = runBody (run (n + 8)) c w := rfl
theorem runAt10 (n : Nat) (c : Cmd) (w : World) : run (n + 10) c w = runBody (run (n + 9)) c w := rfl
theorem runAt11 (n : Nat) (c : Cmd) (w : World) : run (n + 11) c w = runBody (run (n + 10)) c w := rfl
theorem runAt12 (n : Nat) (c : Cmd) (w : World) : run (n + 12) c w = runBody (run (n + 11)) c w := rfl
theorem runAt13 (n : Nat) (c : Cmd) (w : World) : run (n + 13) c w = runBody (run (n + 12)) c w := rfl
theorem runAt14 (n : Nat) (c : Cmd) (w : World) : run (n + 14) c w = runBody (run (n + 13)) c w := rfl
theorem runAt15 (n : Nat) (c : Cmd) (w : World) : run (n + 15) c w = runBody (run (n + 14)) c w := rfl
theorem runAt16 (n : Nat) (c : Cmd) (w : World) : run (n + 16) c w = runBody (run (n + 15)) c w := rfl
theorem runAt17 (n : Nat) (c : Cmd) (w : World) : run (n + 17) c w = runBody (run (n + 16)) c w := rfl
theorem runAt18 (n : Nat) (c : Cmd) (w : World) : run (n + 18) c w = runBody (run (n + 17)) c w := rfl
theorem runAt19 (n : Nat) (c : Cmd) (w : World) : run (n + 19) c w = runBody (run (n + 18)) c w := rfl
theorem runAt20 (n : Nat) (c : Cmd) (w : World) : run (n + 20) c w = runBody (run (n + 19)) c w := rfl
theorem runAt21 (n : Nat) (c : Cmd) (w : World) : run (n + 21) c w = runBody (run (n + 20)) c w := rfl
theorem runAt22 (n : Nat) (c : Cmd) (w : World) : run (n + 22) c w = runBody (run (n + 21)) c w := rfl
theorem runAt23 (n : Nat) (c : Cmd) (w : World) : run (n + 23) c w = runBody (run (n + 22)) c w := rfl
theorem runAt24 (n : Nat) (c : Cmd) (w : World) : run (n + 24) c w = runBody (run (n + 23)) c w := rfl
theorem runAt25 (n : Nat) (c : Cmd) (w : World) : run (n + 25) c w = runBody (run (n + 24)) c w := rfl
theorem runAt26 (n : Nat) (c : Cmd) (w : World) : run (n + 26) c w = runBody (run (n + 25)) c w := rfl
theorem runAt27 (n : Nat) (c : Cmd) (w : World) : run (n + 27) c w = runBody (run (n + 26)) c w := rfl
theorem runAt28 (n : Nat) (c : Cmd) (w : World) : run (n + 28) c w = runBody (run (n + 27)) c w := rfl
theorem runAt29 (n : Nat) (c : Cmd) (w : World) : run (n + 29) c w = runBody (run (n + 28)) c w := rfl
theorem runAt30 (n : Nat) (c : Cmd) (w : World) : run (n + 30) c w = runBody (run (n + 29)) c w := rfl
theorem runAt31 (n : Nat) (c : Cmd) (w : World) : run (n + 31) c w = runBody (run (n + 30)) c w := rfl
theorem runAt32 (n : Nat) (c : Cmd) (w : World) : run (n + 32) c w = runBody (run (n + 31)) c w := rfl
theorem runAt33 (n : Nat) (c : Cmd) (w : World) : run (n + 33) c w = runBody (run (n + 32)) c w := rfl
theorem runAt34 (n : Nat) (c : Cmd) (w : World) : run (n + 34) c w = runBody (run (n + 33)) c w := rfl
theorem runAt35 (n : Nat) (c : Cmd) (w : World) : run (n + 35) c w = runBody (run (n + 34)) c w := rfl
theorem runAt36 (n : Nat) (c : Cmd) (w : World) : run (n + 36) c w = runBody (run (n + 35)) c w := rfl
theorem runAt37 (n : Nat) (c : Cmd) (w : World) : run (n + 37) c w = runBody (run (n + 36)) c w := rfl
theorem runAt38 (n : Nat) (c : Cmd) (w : World) : run (n + 38) c w = runBody (run (n + 37)) c w := rfl
theorem runAt39 (n : Nat) (c : Cmd) (w : World) : run (n + 39) c w = runBody (run (n + 38)) c w := rfl
theorem runAt40 (n : Nat) (c : Cmd) (w : World) : run (n + 40) c w = runBody (run (n + 39)) c w := rfl
theorem runAt41 (n : Nat) (c : Cmd) (w : World) : run (n + 41) c w = runBody (run (n + 40)) c w := rfl
theorem runAt42 (n : Nat) (c : Cmd) (w : World) : run (n + 42) c w = runBody (run (n + 41)) c w := rfl
theorem runAt43 (n : Nat) (c : Cmd) (w : World) : run (n + 43) c w = runBody (run (n + 42)) c w := rfl
theorem runAt44 (n : Nat) (c : Cmd) (w : World) : run (n + 44) c w = runBody (run (n + 43)) c w := rfl
theorem runAt45 (n : Nat) (c : Cmd) (w : World) : run (n + 45) c w = runBody (run (n + 44)) c w := rfl

theorem lastD_cons {U : Type} (v : U) (rest : List U) (u : U) :
    lastD (v :: rest) u = lastD rest v := rfl

theorem lastD_ifEmpty {U : Type} (l : List U) (u : U) :
    (if l.isEmpty then u else lastD l u) = lastD l u := by
  cases l <;> rfl


/-- C2: the claim says a computed cell's evaluation pops the tracking
collector unconditionally, even when the getter throws.  The code
(ComputedSignal.ts:81-103) has no try/finally: `SignalBase.context.pop()`
on line 97 is only reached on normal return.  Evaluating a computed cell
whose getter throws therefore propagates the exception with the collector
still on the global stack: from an empty context, `peek` ends with
`context = [0]`, not `[]`. -/
theorem claim_C2_throw_leaves_collector :
    c2World.context = [] ∧
    (run 50 (.peek 0) c2World).2 = .error .thrown ∧
    (run 50 (.peek 0) c2World).1.context = [0] := by decide

/-- C3: the cacheSize-2 example of the spec.  `doubled.peek = 2` (one
getter run); after `w.set(2)` peek is `4` (second run); after `w.set(1)`
peek is `2` from cache with no getter run; after `w.set(3)` peek is `6`
(third run, evicting the `w=2` slot); after `w.set(2)` peek is `4` with a
fourth run (the evicted slot is gone). -/
theorem claim_C3_cache_size_two_scenario :
    (c3Run 1).2 = .ok (.int 2) ∧ (c3Run 1).1.getterRuns = [1] ∧
    (c3Run 3).2 = .ok (.int 4) ∧ (c3Run 3).1.getterRuns = [1, 1] ∧
    (c3Run 5).2 = .ok (.int 2) ∧ (c3Run 5).1.getterRuns = [1, 1] ∧
    (c3Run 7).2 = .ok (.int 6) ∧ (c3Run 7).1.getterRuns = [1, 1, 1] ∧
    (c3Run 9).2 = .ok (.int 4) ∧ (c3Run 9).1.getterRuns = [1, 1, 1, 1] := by
  decide

/-- C5 counterexample: the claim says a computed cell holds subscriptions
on dependencies only while it has at least one subscriber.  But after two
`get()` calls on a never-subscribed computed cell, the second read is a
cache hit and the hit path of `peek` (ComputedSignal.ts:40-45) subscribes
to the cached dependencies without checking the subscriber count: the cell
ends with zero subscribers yet a live dependency on cell 0. -/
theorem claim_C5_counterexample :
    ((c5Run [.getO 1, .getO 1]).1.cell 1).subscribers = [] ∧
    ((c5Run [.getO 1, .getO 1]).1.cell 1).dependencies = [0] := by decide

/-- C5 amended: during recomputation, dependencies are only registered
while the cell has at least one subscriber (a first `get` with zero
subscribers leaves the dependency set empty); subscribing populates the
set; the last unsubscribe empties it; but the cache-hit path of
`peek`/`get` re-subscribes the hit entry's dependencies even with zero
subscribers. -/
theorem claim_C5_amended :
    ((c5Run [.getO 1]).1.cell 1).dependencies = [] ∧
    ((c5Run [.subO 1 0]).1.cell 1).dependencies = [0] ∧
    ((c5Run [.subO 1 0, .unsubO 1 0]).1.cell 1).dependencies = [] ∧
    ((c5Run [.getO 1, .getO 1]).1.cell 1).dependencies = [0] := by decide

/-- C6: for a cell with a subscriber, `set(x)` notifies exactly when the
default `hasChanged` (`!Object.is`) distinguishes the last broadcast value
`a` from `x`, for arbitrary current value `u`; on a notification the last
broadcast value becomes `x`, otherwise it stays `a`; and `set` returns the
stored value.  Instantiating `a = x = NaN` or `a = x = ref r` gives the
NaN-aware, identity-not-deep cases. -/
theorem claim_C6_notify_iff_hasChanged (a u x : Val) (n : Nat) :
    (run (n + 8) (.setVal 0 x) (c6World a u)).1.extLog
        = (if objectIs a x then [] else [(0, x)]) ∧
    ((run (n + 8) (.setVal 0 x) (c6World a u)).1.cell 0).lastBroadcastValue
        = (if objectIs a x then a else x) ∧
    (run (n + 8) (.setVal 0 x) (c6World a u)).2 = .ok x := by
  by_cases h : objectIs a x = true
  · simp [runAt8, runAt7, runAt6, runAt5, runAt4, runAt3, runAt2, run_succ,
      runBody, c6World, mkWorld, mkSignal, World.cell, World.modCell,
      addUnique, evalHC, notEqual, h]
  · simp only [Bool.not_eq_true] at h
    simp [runAt8, runAt7, runAt6, runAt5, runAt4, runAt3, runAt2, run_succ,
      runBody, c6World, mkWorld, mkSignal, World.cell, World.modCell,
      addUnique, evalHC, notEqual, h]

/-- C7: the conditional-dependency scenario.  After `lever.set(false)` the
subscribed computed cell re-evaluated through the else-branch: its live
dependencies are exactly `[lever, secondNumber]`, and `firstNumber` no
longer holds its notify callback.  A subsequent `firstNumber.set(5)`
produces no notification and no getter re-run (logs unchanged). -/
theorem claim_C7_untaken_branch_not_subscribed :
    ((c7Run [.subO 3 0, .setO 2 (.bool false)]).1.cell 3).dependencies = [2, 1] ∧
    ((c7Run [.subO 3 0, .setO 2 (.bool false)]).1.cell 0).subscribers = [] ∧
    (c7Run [.subO 3 0, .setO 2 (.bool false)]).1.extLog
        = [(0, .int 1), (0, .int 2)] ∧
    (c7Run [.subO 3 0, .setO 2 (.bool false)]).1.getterRuns = [3, 3] ∧
    (c7Run [.subO 3 0, .setO 2 (.bool false), .setO 0 (.int 5)]).1.extLog
        = [(0, .int 1), (0, .int 2)] ∧
    (c7Run [.subO 3 0, .setO 2 (.bool false), .setO 0 (.int 5)]).1.getterRuns
        = [3, 3] := by decide

/-- C8: subscribing ran the getter once and cached `{w ↦ 1} → 2`; the
last unsubscribe cleared the dependency edges but kept the cache; a later
subscribe (tag 7) with `w` unchanged is served from the cache: the getter
run log is still `[1]`, the new subscriber is immediately called with the
cached `2`, and the dependency edge on cell 0 is re-established. -/
theorem claim_C8_cache_survives_subscription_gap :
    (c8Run 1).1.getterRuns = [1] ∧
    ((c8Run 2).1.cell 1).subscribers = [] ∧
    ((c8Run 2).1.cell 1).dependencies = [] ∧
    ((c8Run 2).1.cell 1).cache = [⟨.int 2, [(0, .int 1)]⟩] ∧
    (c8Run 3).1.getterRuns = [1] ∧
    (c8Run 3).1.extLog = [(0, .int 2), (7, .int 2)] ∧
    ((c8Run 3).1.cell 1).dependencies = [0] := by decide

/-- C9: inside an active batch, `set(v)` stores `v` immediately: the call
returns `.ok v`, the cell's stored value is `v`, and both `get()` and
`peek` performed afterwards (still inside the batch) return `v`; no
subscriber was invoked and no update check ran (only the pending set
gained this cell's check). -/
theorem claim_C9_set_applies_immediately_in_batch (u v : Val) (n : Nat) :
    (run (n + 8) (.setVal 0 v) (c9World u)).2 = .ok v ∧
    ((run (n + 8) (.setVal 0 v) (c9World u)).1.cell 0).value = v ∧
    (run (n + 8) (.setVal 0 v) (c9World u)).1.extLog = [] ∧
    (run (n + 8) (.setVal 0 v) (c9World u)).1.checks = [] ∧
    (run (n + 8) (.setVal 0 v) (c9World u)).1.batched = some [0] ∧
    (run (n + 8) (.getTr 0 true) ((run (n + 8) (.setVal 0 v) (c9World u)).1)).2
        = .ok v ∧
    (run (n + 8) (.peek 0) ((run (n + 8) (.setVal 0 v) (c9World u)).1)).2
        = .ok v := by
  exact ⟨rfl, rfl, rfl, rfl, rfl, rfl, rfl⟩

/-- C10: the computed cell's internal value starts as `undefined`, yet the
first `subscribe` forces an evaluation before the mandatory immediate
call: the callback receives the freshly computed `6`, never `undefined`.
After losing its subscriber and a dependency write during the gap, a new
`subscribe` (tag 9) receives the recomputed `10`, not the stale `6`. -/
theorem claim_C10_subscribe_forces_fresh_value :
    (c10World.cell 1).value = .undef ∧
    (c10Run [.subO 1 0]).1.extLog = [(0, .int 6)] ∧
    (c10Run [.subO 1 0, .unsubO 1 0, .setO 0 (.int 5), .subO 1 9]).1.extLog
        = [(0, .int 6), (9, .int 10)] := by decide


theorem lastD_append {U : Type} (xs ys : List U) (u : U) :
    lastD (xs ++ ys) u = lastD ys (lastD xs u) := by
  induction xs generalizing u with
  | nil => rfl
  | cons v rest ih => exact ih v

theorem runOps_cons (n : Nat) (op : Op) (ops : List Op) (acc : Val) (w : World) :
    run (n + 1) (.runOps (op :: ops) acc) w =
      match run n (.runOp op) w with
      | (w1, .error e) => (w1, .error e)
      | (w1, .ok v) => run n (.runOps ops v) w1 := rfl

theorem c4set_eval_nil (m : Nat) (v a u : Val) (hck : HCK) :
    run (m + 3) (.runOp (.setO 0 v)) (c4Mid a u hck (some [])) =
      (c4Mid a v hck (some [0]), .ok v) := rfl

theorem c4set_eval_pend (m : Nat) (v a u : Val) (hck : HCK) :
    run (m + 3) (.runOp (.setO 0 v)) (c4Mid a u hck (some [0])) =
      (c4Mid a v hck (some [0]), .ok v) := rfl

/-- Running a sequence of `set` operations on the C4 cell inside an active
batch: each write stores its value and enqueues the cell's (single) update
check; nothing is notified and the last broadcast value is untouched. -/
theorem c4Writes (vs : List Val) :
    ∀ (acc a u : Val) (hck : HCK) (p : List Nat) (n : Nat),
    (p = [] ∨ p = [0]) → vs.length + 4 ≤ n →
    run n (.runOps (vs.map (Op.setO 0)) acc) (c4Mid a u hck (some p)) =
      (c4Mid a (lastD vs u) hck (some (if vs.isEmpty then p else [0])),
       Except.ok (if vs.isEmpty then acc else lastD vs u)) := by
  induction vs with
  | nil =>
    intro acc a u hck p n hp hn
    obtain ⟨m, rfl⟩ : ∃ m, n = m + 1 := ⟨n - 1, by omega⟩
    simp [run_succ, runBody, lastD]
  | cons v rest ih =>
    intro acc a u hck p n hp hn
    obtain ⟨m, rfl⟩ : ∃ m, n = m + 4 := ⟨n - 4, by omega⟩
    rw [show m + 4 = (m + 3) + 1 from rfl, List.map_cons, run_succ]
    simp only [runBody]
    rcases hp with rfl | rfl
    · rw [c4set_eval_nil]
      change run (m + 3) (.runOps (List.map (Op.setO 0) rest) v)
          (c4Mid a v hck (some [0])) = _
      rw [ih v a v hck [0] (m + 3) (Or.inr rfl)
        (by simp only [List.length_cons] at hn; omega)]
      simp [lastD_cons, lastD_ifEmpty]
      rintro rfl
      rfl
    · rw [c4set_eval_pend]
      change run (m + 3) (.runOps (List.map (Op.setO 0) rest) v)
          (c4Mid a v hck (some [0])) = _
      rw [ih v a v hck [0] (m + 3) (Or.inr rfl)
        (by simp only [List.length_cons] at hn; omega)]
      simp [lastD_cons, lastD_ifEmpty]
      rintro rfl
      rfl

theorem dset_eval_nil (m : Nat) (v u : Int) :
    run (m + 3) (.runOp (.setO 0 (.int v))) (dMid (.int u) (some [])) =
      (dMid (.int v) (some [0]), .ok (.int v)) := rfl

theorem dset_eval_pend (m : Nat) (v u : Int) :
    run (m + 3) (.runOp (.setO 0 (.int v))) (dMid (.int u) (some [0])) =
      (dMid (.int v) (some [0]), .ok (.int v)) := rfl

/-- Writes to W inside an active batch, on the post-setup diamond world:
each write stores its value and coalesces into the single pending check
for W; no notification and no recomputation happens during the batch. -/
theorem dWrites (vs : List Int) :
    ∀ (acc : Val) (u : Int) (p : List Nat) (n : Nat),
    (p = [] ∨ p = [0]) → vs.length + 4 ≤ n →
    run n (.runOps (dSets vs) acc) (dMid (.int u) (some p)) =
      (dMid (.int (lastD vs u)) (some (if vs.isEmpty then p else [0])),
       Except.ok (if vs.isEmpty then acc else .int (lastD vs u))) := by
  induction vs with
  | nil =>
    intro acc u p n hp hn
    obtain ⟨m, rfl⟩ : ∃ m, n = m + 1 := ⟨n - 1, by omega⟩
    simp [run_succ, runBody, lastD, dSets]
  | cons v rest ih =>
    intro acc u p n hp hn
    obtain ⟨m, rfl⟩ : ∃ m, n = m + 4 := ⟨n - 4, by omega⟩
    rw [show m + 4 = (m + 3) + 1 from rfl]
    rw [show dSets (v :: rest) = Op.setO 0 (.int v) :: dSets rest from rfl]
    rw [run_succ]
    simp only [runBody]
    rcases hp with rfl | rfl
    · rw [dset_eval_nil]
      change run (m + 3) (.runOps (dSets rest) (.int v))
          (dMid (.int v) (some [0])) = _
      rw [ih (.int v) v [0] (m + 3) (Or.inr rfl)
        (by simp only [List.length_cons] at hn; omega)]
      simp [lastD_cons, lastD_ifEmpty]
      rintro rfl
      rfl
    · rw [dset_eval_pend]
      change run (m + 3) (.runOps (dSets rest) (.int v))
          (dMid (.int v) (some [0])) = _
      rw [ih (.int v) v [0] (m + 3) (Or.inr rfl)
        (by simp only [List.length_cons] at hn; omega)]
      simp [lastD_cons, lastD_ifEmpty]
      rintro rfl
      rfl

/-- C1: on the diamond graph (V subscribed, so W is observed by C1 and C2
and both are observed by V), a batch performing any nonempty sequence of
integer writes to W invokes V's getter at most once and notifies V's
subscriber at most once: the getter runs after the setup prefix contain at
most one entry for V (cell 3), and at most one external notification is
appended to the log. -/
theorem claim_C1_diamond_recompute_once (vs : List Int) (n : Nat)
    (hn : vs.length + 45 ≤ n) :
    (((run n (.runOp (.batchO (dSets vs))) dSetupW).1.getterRuns.drop 3).count 3
        ≤ 1)
    ∧ (((run n (.runOp (.batchO (dSets vs))) dSetupW).1.extLog.drop 1).length
        ≤ 1) := by
  obtain ⟨m, rfl⟩ : ∃ m, n = m + 45 := ⟨n - 45, by omega⟩
  have hset : dSetupW = dMid (.int 1) none := by decide
  rw [hset]
  have h1 : run (m + 45) (.runOp (.batchO (dSets vs))) (dMid (.int 1) none)
    = (match run (m + 44) (.runOps (dSets vs) .undef)
          (dMid (.int 1) (some [])) with
       | (w2, .error e) => (w2, .error e)
       | (w2, .ok v) =>
         match run (m + 44) (.flushFrom 0) w2 with
         | (w3, .error e) => (w3, .error e)
         | (w3, .ok _) => ({ w3 with batched := none }, .ok v)) := rfl
  rw [h1, dWrites vs .undef 1 [] (m + 44) (Or.inl rfl) (by omega)]
  rcases vs with _ | ⟨v0, vtl⟩
  · simp only [List.isEmpty_nil, if_true]
    simp [runAt44, runAt43, runAt42, runAt41, runAt40, run_succ, runBody,
      dMid, lastD]
  · simp only [List.isEmpty_cons, Bool.false_eq_true, if_false, lastD_cons]
    by_cases hx : lastD vtl v0 = 1
    · rw [hx]
      simp [runAt44, runAt43, runAt42, runAt41, runAt40, runAt39, runAt38,
        runAt37, runAt36, runAt35, runAt34, runAt33, runAt32, runAt31,
        runAt30, runAt29, runAt28, runAt27, runAt26, runAt25, runAt24,
        runAt23, runAt22, runAt21, runAt20, runAt19, runAt18, runAt17,
        runAt16, runAt15, runAt14, runAt13, runAt12, runAt11, runAt10,
        runAt9, runAt8, runAt7, runAt6, runAt5, runAt4, runAt3, runAt2,
        runAt1, run_succ, runBody, dMid, World.cell, World.modCell,
        addUnique, listDiff, mapSet, objectIs, strictEq, notEqual, evalHC,
        valMul, valAdd, List.getD]
    · have hx1 : (lastD vtl v0 == (1 : Int)) = false := by simp [hx]
      have hx2 : ((1 : Int) == lastD vtl v0) = false := by simp [Ne.symm hx]
      have e3 : lastD vtl v0 * 2 ≠ 2 := by omega
      have e4 : lastD vtl v0 * 3 ≠ 3 := by omega
      have e5 : (5 : Int) ≠ lastD vtl v0 * 2 + lastD vtl v0 * 3 := by omega
      have e6 : lastD vtl v0 * 2 + lastD vtl v0 * 3 ≠ 5 := by omega
      have hx3 : (lastD vtl v0 * 2 == (2 : Int)) = false := by simp [e3]
      have hx4 : (lastD vtl v0 * 3 == (3 : Int)) = false := by simp [e4]
      have hx5 : ((5 : Int) == lastD vtl v0 * 2 + lastD vtl v0 * 3) = false := by
        simp [e5]
      have hx6 : (lastD vtl v0 * 2 + lastD vtl v0 * 3 == (5 : Int)) = false := by
        simp [e6]
      simp [runAt44, runAt43, runAt42, runAt41, runAt40, runAt39, runAt38,
        runAt37, runAt36, runAt35, runAt34, runAt33, runAt32, runAt31,
        runAt30, runAt29, runAt28, runAt27, runAt26, runAt25, runAt24,
        runAt23, runAt22, runAt21, runAt20, runAt19, runAt18, runAt17,
        runAt16, runAt15, runAt14, runAt13, runAt12, runAt11, runAt10,
        runAt9, runAt8, runAt7, runAt6, runAt5, runAt4, runAt3, runAt2,
        runAt1, run_succ, runBody, dMid, World.cell, World.modCell,
        addUnique, listDiff, mapSet, objectIs, strictEq, notEqual, evalHC,
        valMul, valAdd, List.getD, hx1, hx2, hx3, hx4, hx5, hx6]

theorem claim_C1_diamond_recompute_once_witness :
    ([2, 7] : List Int).length + 45 ≤ 47 ∧
    ((((run 47 (.runOp (.batchO (dSets [2, 7]))) dSetupW).1.getterRuns.drop 3).count 3
        ≤ 1)
     ∧ (((run 47 (.runOp (.batchO (dSets [2, 7]))) dSetupW).1.extLog.drop 1).length
        ≤ 1)) :=
  ⟨by decide, claim_C1_diamond_recompute_once [2, 7] 47 (by decide)⟩

/-- C4: for any write values and any split of the writes between a nested
inner batch and the rest of the outer batch, the outer `batch` call runs
the cell's update check exactly once (`checks = [0]`), notifies the
subscriber at most once and only if the net final value differs from the
pre-batch broadcast value `a` under the cell's `hasChanged`, returns the
action's value (the last `set`'s return), and clears the batch state; and
the inner nested `batch` call, run while a batch is active, flushes
nothing: no check runs and nothing is notified at its exit. -/
theorem claim_C4_nested_batch_coalescing (a u x y : Val) (xs ys : List Val)
    (hck : HCK) (n : Nat) (hn : xs.length + ys.length + 24 ≤ n) :
    (run n (.runOp (.batchO
        (Op.batchO ((x :: xs).map (Op.setO 0)) :: (y :: ys).map (Op.setO 0))))
      (c4World a u hck)).1.checks = [0] ∧
    (run n (.runOp (.batchO
        (Op.batchO ((x :: xs).map (Op.setO 0)) :: (y :: ys).map (Op.setO 0))))
      (c4World a u hck)).1.extLog
      = (if evalHC hck a (lastD ((x :: xs) ++ y :: ys) u)
         then [(0, lastD ((x :: xs) ++ y :: ys) u)] else []) ∧
    (run n (.runOp (.batchO
        (Op.batchO ((x :: xs).map (Op.setO 0)) :: (y :: ys).map (Op.setO 0))))
      (c4World a u hck)).2 = .ok (lastD ((x :: xs) ++ y :: ys) u) ∧
    (run n (.runOp (.batchO
        (Op.batchO ((x :: xs).map (Op.setO 0)) :: (y :: ys).map (Op.setO 0))))
      (c4World a u hck)).1.batched = none ∧
    (run n (.runOp (.batchO ((x :: xs).map (Op.setO 0))))
      (c4Mid a u hck (some []))).1.checks = [] ∧
    (run n (.runOp (.batchO ((x :: xs).map (Op.setO 0))))
      (c4Mid a u hck (some []))).1.extLog = [] ∧
    (run n (.runOp (.batchO ((x :: xs).map (Op.setO 0))))
      (c4Mid a u hck (some []))).1.batched = some [0] := by
  have hL : lastD ((x :: xs) ++ y :: ys) u = lastD ys y := by
    rw [lastD_append, lastD_cons]
  rw [hL]
  obtain ⟨m, rfl⟩ : ∃ m, n = m + 20 := ⟨n - 20, by omega⟩
  have hInner : ∀ (k : Nat), xs.length + 19 ≤ k →
      run k (.runOp (.batchO ((x :: xs).map (Op.setO 0))))
        (c4Mid a u hck (some [])) =
      (c4Mid a (lastD xs x) hck (some [0]), .ok (lastD xs x)) := by
    intro k hk
    obtain ⟨j, rfl⟩ : ∃ j, k = j + 1 := ⟨k - 1, by omega⟩
    rw [run_succ]
    simp only [runBody]
    have cb : (c4Mid a u hck (some [])).batched = some [] := rfl
    simp only [cb, Option.isNone_some, Bool.false_eq_true, if_false]
    rw [c4Writes (x :: xs) .undef a u hck [] j (Or.inl rfl)
      (by simp only [List.length_cons]; omega)]
    simp [lastD_cons]
  have h1 : run (m + 20) (.runOp (.batchO
      (Op.batchO ((x :: xs).map (Op.setO 0)) :: (y :: ys).map (Op.setO 0))))
      (c4World a u hck)
    = (match run (m + 19)
          (.runOps (Op.batchO ((x :: xs).map (Op.setO 0))
            :: (y :: ys).map (Op.setO 0)) .undef)
          (c4Mid a u hck (some [])) with
       | (w2, .error e) => (w2, .error e)
       | (w2, .ok v) =>
         match run (m + 19) (.flushFrom 0) w2 with
         | (w3, .error e) => (w3, .error e)
         | (w3, .ok _) => ({ w3 with batched := none }, .ok v)) := rfl
  rw [h1, show m + 19 = (m + 18) + 1 from rfl, runOps_cons,
    hInner (m + 18) (by omega), hInner (m + 20) (by omega)]
  dsimp only []
  have hW2 := c4Writes (y :: ys) (lastD xs x) a (lastD xs x) hck [0] (m + 18)
    (Or.inr rfl) (by simp only [List.length_cons]; omega)
  simp only [List.isEmpty_cons, Bool.false_eq_true, if_false, lastD_cons] at hW2
  rw [hW2]
  dsimp only []
  by_cases hc : evalHC hck a (lastD ys y) = true
  · simp [runAt19, runAt18, runAt17, runAt16, runAt15, runAt14, runAt13,
      runAt12, runAt11, runAt10, runAt9, runAt8, runAt7, runAt6, runAt5,
      runAt4, runAt3, runAt2, runAt1, run_succ, runBody, c4Mid, c4World,
      mkWorld, World.cell, World.modCell, addUnique, hc]
  · simp only [Bool.not_eq_true] at hc
    simp [runAt19, runAt18, runAt17, runAt16, runAt15, runAt14, runAt13,
      runAt12, runAt11, runAt10, runAt9, runAt8, runAt7, runAt6, runAt5,
      runAt4, runAt3, runAt2, runAt1, run_succ, runBody, c4Mid, c4World,
      mkWorld, World.cell, World.modCell, addUnique, hc]

theorem claim_C4_nested_batch_coalescing_witness :
    ([] : List Val).length + ([Val.int 3] : List Val).length + 24 ≤ 40 ∧
    (run 40 (.runOp (.batchO
        (Op.batchO ((Val.int 2 :: ([] : List Val)).map (Op.setO 0))
          :: (Val.int 1 :: [Val.int 3]).map (Op.setO 0))))
      (c4World (.int 1) (.int 1) .defaultHC)).1.checks = [0] ∧
    (run 40 (.runOp (.batchO
        (Op.batchO ((Val.int 2 :: ([] : List Val)).map (Op.setO 0))
          :: (Val.int 1 :: [Val.int 3]).map (Op.setO 0))))
      (c4World (.int 1) (.int 1) .defaultHC)).1.extLog
      = (if evalHC .defaultHC (.int 1)
            (lastD ((Val.int 2 :: ([] : List Val)) ++ Val.int 1 :: [Val.int 3])
              (.int 1))
         then [(0, lastD ((Val.int 2 :: ([] : List Val))
                  ++ Val.int 1 :: [Val.int 3]) (.int 1))] else []) ∧
    (run 40 (.runOp (.batchO
        (Op.batchO ((Val.int 2 :: ([] : List Val)).map (Op.setO 0))
          :: (Val.int 1 :: [Val.int 3]).map (Op.setO 0))))
      (c4World (.int 1) (.int 1) .defaultHC)).2
      = .ok (lastD ((Val.int 2 :: ([] : List Val)) ++ Val.int 1 :: [Val.int 3])
          (.int 1)) ∧
    (run 40 (.runOp (.batchO
        (Op.batchO ((Val.int 2 :: ([] : List Val)).map (Op.setO 0))
          :: (Val.int 1 :: [Val.int 3]).map (Op.setO 0))))
      (c4World (.int 1) (.int 1) .defaultHC)).1.batched = none ∧
    (run 40 (.runOp (.batchO ((Val.int 2 :: ([] : List Val)).map (Op.setO 0))))
      (c4Mid (.int 1) (.int 1) .defaultHC (some []))).1.checks = [] ∧
    (run 40 (.runOp (.batchO ((Val.int 2 :: ([] : List Val)).map (Op.setO 0))))
      (c4Mid (.int 1) (.int 1) .defaultHC (some []))).1.extLog = [] ∧
    (run 40 (.runOp (.batchO ((Val.int 2 :: ([] : List Val)).map (Op.setO 0))))
      (c4Mid (.int 1) (.int 1) .defaultHC (some []))).1.batched = some [0] :=
  ⟨by decide, claim_C4_nested_batch_coalescing (.int 1) (.int 1) (.int 2)
    (.int 1) [] [.int 3] .defaultHC 40 (by decide)⟩

end Solit
